import Mathlib

/- Shallow embedding of the httomolibgpu correction core:
   `httomolibgpu/prep/alignment.py` (memory estimator, two distortion-correction
   variants, metadata loader) and `httomolibgpu/misc/corr.py` (3D median /
   dezinger filter and its outlier wrapper), together with theorems checking
   the natural-language specification against this embedding. -/

/-- Python-level errors surfaced by the embedded functions.  `valueError`
carries an optional chained cause (the rendering of the low-level exception),
mirroring `raise ValueError(...) from exc`; a `valueError` with no cause is an
unchained `raise ValueError(...)`. -/
inductive PyErr where
  | typeError (msg : String)
  | fileNotFound (path : String)
  | indexError
  | zeroDivision
  | valueError (msg : String) (cause : Option String)
  | broadcastError (src dst : List Nat)
  deriving DecidableEq

/-- True exactly for a ValueError carrying a chained low-level cause. -/
def PyErr.isChained : PyErr → Bool
  | .valueError _ (some _) => true
  | _ => false

/-- Element types of device arrays appearing in the code. -/
inductive DType where
  | float32
  | uint16
  | float64
  deriving DecidableEq

/-- Bytes per element (`dtype.itemsize`). -/
def DType.itemsize : DType → Nat
  | .float32 => 4
  | .uint16 => 2
  | .float64 => 8

deriving instance DecidableEq for Except

/-- A file system: maps a path to the list of lines of the file, if present.
`none` models a missing path (`open` raises `FileNotFoundError`). -/
abbrev FileSys := String → Option (List String)

/-- Helper for whitespace splitting: `acc` holds the current token reversed. -/
def splitWSAux : List Char → List Char → List (List Char)
  | [], acc => if acc.isEmpty then [] else [acc.reverse]
  | c :: rest, acc =>
    if c.isWhitespace then
      if acc.isEmpty then splitWSAux rest [] else acc.reverse :: splitWSAux rest []
    else splitWSAux rest (c :: acc)

/-- Whitespace splitting of a line, as Python `str.split()` with no arguments:
runs of whitespace separate tokens, leading/trailing whitespace is ignored. -/
def splitWS (s : List Char) : List (List Char) := splitWSAux s []

/-- Accumulating decimal-digit parser; fails on the first non-digit. -/
def parseDigitsAux : List Char → Nat → Option Nat
  | [], acc => some acc
  | c :: rest, acc =>
    if c.isDigit then parseDigitsAux rest (acc * 10 + (c.toNat - 48)) else none

/-- Split a token at the first dot, if any. -/
def breakDot : List Char → List Char × Option (List Char)
  | [] => ([], none)
  | c :: rest =>
    if c = '.' then ([], some rest)
    else
      let p := breakDot rest
      (c :: p.1, p.2)

/-- Unsigned decimal numeral, integer part and optional fractional part. -/
def parseUnsigned (s : List Char) : Option ℚ :=
  let p := breakDot s
  match p.2 with
  | none =>
    if s.isEmpty then none
    else (parseDigitsAux p.1 0).map fun n => (n : ℚ)
  | some fp =>
    if p.1.isEmpty && fp.isEmpty then none
    else
      match parseDigitsAux p.1 0, parseDigitsAux fp 0 with
      | some a, some b => some ((a : ℚ) + (b : ℚ) / ((10 : ℚ) ^ fp.length))
      | _, _ => none

/-- Modelled from the spec: the Python built-in `float` applied to a token of
the coefficient file ("each line's last whitespace-separated token is parsed
as a floating-point number", spec section 4.4); embedded on plain decimal
numerals with an optional sign, yielding the exact rational value. -/
def parseFloatTok : List Char → Option ℚ
  | [] => none
  | c :: rest =>
    if c = '-' then (parseUnsigned rest).map Neg.neg
    else if c = '+' then parseUnsigned rest
    else parseUnsigned (c :: rest)

/-- The loop body of `_load_metadata_txt`:
`list_data.append(float(i.split()[-1]))` over all lines, with Python's error
behaviour (IndexError on a line with no token, ValueError on a token that is
not a float literal). -/
def parseAllLines : List String → Except PyErr (List ℚ)
  | [] => .ok []
  | l :: rest =>
    match (splitWS l.data).getLast? with
    | none => .error .indexError
    | some tok =>
      match parseFloatTok tok with
      | none => .error (.valueError "could not convert string to float" none)
      | some v => (parseAllLines rest).map fun vs => v :: vs

/-- `_load_metadata_txt` (alignment.py lines 311-339): open the file, parse the
last token of every line, and return `(xcenter, ycenter, list_fact)` from lines
0, 1 and the rest.  A `none` path mirrors `open(None)` raising `TypeError`; a
missing path raises `FileNotFoundError`; fewer than two parsed values raises
`IndexError` at `list_data[0]` / `list_data[1]`. -/
def _load_metadata_txt (fs : FileSys) (file_path : Option String) :
    Except PyErr (ℚ × ℚ × List ℚ) :=
  match file_path with
  | none => .error (.typeError "expected str, bytes or os.PathLike object, not NoneType")
  | some p =>
    match fs p with
    | none => .error (.fileNotFound p)
    | some lines =>
      match parseAllLines lines with
      | .error e => .error e
      | .ok list_data =>
        match list_data with
        | x0 :: x1 :: rest => .ok (x0, x1, rest)
        | _ => .error .indexError

/-- `_calc_max_slices_distortion_correction_proj` (alignment.py lines 39-69).
All intermediate sizes are nonnegative Python ints (natural numbers); the
subtraction from `available_memory` and the final floor division happen in ℤ,
as Python `//` is floor division.  A zero `slice_size` mirrors Python's
`ZeroDivisionError`. -/
def _calc_max_slices_distortion_correction_proj (H W : Nat) (dtype : DType)
    (available_memory : ℤ) : Except PyErr (ℤ × DType × (Nat × Nat)) :=
  let lists_size : Nat := (W + H) * 8
  let meshgrid_size : Nat := (W * H * 2) * 8
  let ru_mat_size : Nat := meshgrid_size / 2
  let fact_mat_size : Nat := ru_mat_size
  let xd_mat_size : Nat := fact_mat_size / 2
  let yd_mat_size : Nat := xd_mat_size
  let indices_size : Nat := xd_mat_size + yd_mat_size
  let slice_size : Nat := H * W * dtype.itemsize
  let processing_size : Nat := slice_size * 4
  let remaining : ℤ := available_memory -
    ((lists_size + meshgrid_size + ru_mat_size + fact_mat_size * 2 + xd_mat_size
      + yd_mat_size + processing_size + indices_size * 3 : Nat) : ℤ)
  if slice_size = 0 then .error .zeroDivision
  else .ok (Int.fdiv remaining (slice_size : ℤ), dtype, (H, W))

/-- The fixed temporary-buffer overhead of the distortion corrector, spelled
out as the specification enumerates it (spec section 4.1): coordinate lists,
meshgrid pair, radius matrix, polynomial-sum matrix (counted twice, as the
code does), the two float32 mapped-coordinate matrices, the per-slice
interpolation temporaries (four slices' worth, counted once), and the stacked
index buffer at three times its raw size. -/
def distortionFixedOverhead (H W itemsize : Nat) : Nat :=
  (W + H) * 8 + 2 * (H * W) * 8 + H * W * 8 + 2 * (H * W * 8)
    + H * W * 4 + H * W * 4 + 4 * (H * W * itemsize) + 3 * (H * W * 4 + H * W * 4)

/-- A device array: element type, shape, and values.  `val` is consulted only
at multi-indices inside `shape`; positions outside the shape are not part of
the array and the model carries the input's values there. -/
structure NDArray where
  dtype : DType
  shape : List Nat
  val : Nat → Nat → Nat → ℚ

/-- Clamp an integer index into `[0, n-1]`. -/
def clampIdx (n : Nat) (i : ℤ) : Nat := min (max i 0).toNat (n - 1)

/-- Modelled from the spec: the `kernel_size`-cubed neighbourhood of a voxel,
gathered with clamped indices at the boundary (spec section 4.3; the CUDA
kernel source `httomolibgpu/cuda_kernels/median_kernel.cu` is not among the
given sources, only its launcher in corr.py is). -/
def nbhdList (val : Nat → Nat → Nat → ℚ) (dz dy dx ks : Nat) (z y x : Nat) : List ℚ :=
  (List.range ks).flatMap fun i =>
    (List.range ks).flatMap fun j =>
      (List.range ks).map fun k =>
        val (clampIdx dz ((z : ℤ) + (i : ℤ) - ((ks / 2 : Nat) : ℤ)))
            (clampIdx dy ((y : ℤ) + (j : ℤ) - ((ks / 2 : Nat) : ℤ)))
            (clampIdx dx ((x : ℤ) + (k : ℤ) - ((ks / 2 : Nat) : ℤ)))

/-- Median of a list: middle element of the sorted list (the list has odd
length `kernel_size ^ 3` whenever it is a gathered neighbourhood). -/
def listMedian (l : List ℚ) : ℚ := (l.insertionSort (· ≤ ·)).getD (l.length / 2) 0

/-- Median of the clamped `kernel_size`-cubed neighbourhood of a voxel. -/
def nbhdMedian (val : Nat → Nat → Nat → ℚ) (dz dy dx ks z y x : Nat) : ℚ :=
  listMedian (nbhdList val dz dy dx ks z y x)

/-- Modelled from the spec: the per-voxel median/dezinger policy (spec section
4.3): for `dif <= 0` the voxel is replaced by the neighbourhood median; for
`dif > 0` it is replaced only when `|value - median| > dif`. -/
def medianKernelVoxel (val : Nat → Nat → Nat → ℚ) (dz dy dx ks : Nat) (dif : ℚ)
    (z y x : Nat) : ℚ :=
  let m := nbhdMedian val dz dy dx ks z y x
  if dif ≤ 0 then m
  else if dif < |val z y x - m| then m else val z y x

/-- Validation phase of `median_filter3d` (corr.py lines 68-80), returning the
first violation, if any, in source order: dtype, then dimensionality and
zero-length axes, then kernel size.  Everything after this phase is kernel
compilation and dispatch. -/
def medianValidate (data : NDArray) (kernel_size : Nat) : Option PyErr :=
  if ¬ (data.dtype = DType.float32 ∨ data.dtype = DType.uint16) then
    some (.valueError "The input data should be either float32 or uint16 data type" none)
  else if data.shape.length = 3 then
    if 0 ∈ data.shape then
      some (.valueError "The length of one of dimensions is equal to zero" none)
    else if kernel_size ∈ [3, 5, 7, 9, 11, 13] then none
    else some (.valueError "Please select a correct kernel size: 3, 5, 7, 9, 11, 13" none)
  else some (.valueError "The input array must be a 3D array" none)

/-- `median_filter3d` (corr.py lines 42-103): validation, then the parallel
median/dezinger kernel writing every in-bounds voxel of a fresh output array
(`out = cp.empty(...)`; the input array is only read). -/
def median_filter3d (data : NDArray) (kernel_size : Nat := 3) (dif : ℚ := 0) :
    Except PyErr NDArray :=
  match medianValidate data kernel_size with
  | some e => .error e
  | none =>
    let dz := data.shape.getD 0 0
    let dy := data.shape.getD 1 0
    let dx := data.shape.getD 2 0
    .ok { data with
          val := fun z y x =>
            if z < dz ∧ y < dy ∧ x < dx then
              medianKernelVoxel data.val dz dy dx kernel_size dif z y x
            else data.val z y x }

/-- `remove_outlier3d` (corr.py lines 106-133): delegates to `median_filter3d`
with the same arguments; only the default `dif` differs (0.1 instead of 0). -/
def remove_outlier3d (data : NDArray) (kernel_size : Nat := 3) (dif : ℚ := 0.1) :
    Except PyErr NDArray :=
  median_filter3d data kernel_size dif

/-- The preview window: per-axis `start` and `step` lists of the chunk's
region of interest (only these two are consumed by the distortion
correctors). -/
structure Preview where
  starts : List ℤ
  steps : List Nat

/-- A 3-axis device volume `[slice, height, width]` of real-valued samples. -/
abbrev Vol (N H W : Nat) : Type := Fin N → Fin H → Fin W → ℝ

/-- The periodic reflection of an integer index into `[0, n-1]`, scipy mode
`reflect` (`(d c b a | a b c d | d c b a)`): period `2n`, descending in the
second half-period. -/
def reflectIndex (n : Nat) (i : ℤ) : ℤ :=
  let j := i % (2 * (n : ℤ))
  if j < (n : ℤ) then j else 2 * (n : ℤ) - 1 - j

theorem reflectIndex_bounds (n : Nat) (hn : n ≠ 0) (i : ℤ) :
    0 ≤ reflectIndex n i ∧ reflectIndex n i < (n : ℤ) := by
  have hn2 : (0 : ℤ) < 2 * (n : ℤ) := by
    have : 0 < n := Nat.pos_of_ne_zero hn
    omega
  have h1 := Int.emod_nonneg i (by omega : (2 * (n : ℤ)) ≠ 0)
  have h2 := Int.emod_lt_of_pos i hn2
  unfold reflectIndex
  dsimp only
  split <;> omega

/-- Reflection landing in `Fin n`. -/
def reflectFin (n : Nat) [NeZero n] (i : ℤ) : Fin n :=
  ⟨(reflectIndex n i).toNat, by
    have h := reflectIndex_bounds n (NeZero.ne n) i
    omega⟩

/-- Modelled from the spec: the external interpolation primitive
(`cupyx.scipy.ndimage.map_coordinates`; spec section 2 capability "resample a
2D field at floating-point coordinates with a configurable boundary-handling
mode and interpolation order").  Embedded at order 1 (bilinear, no spline
prefilter) with reflective boundary handling — the fixed configuration of
variant A and the defaults of variant B; `order` and `mode` are carried as
parameters of the call but the embedding gives the order-1/reflect
semantics. -/
noncomputable def mapCoord (_order : Nat) (_mode : String) {H W : Nat}
    [NeZero H] [NeZero W] (f : Fin H → Fin W → ℝ) (y x : ℝ) : ℝ :=
  let y0 : ℤ := ⌊y⌋
  let x0 : ℤ := ⌊x⌋
  let fy : ℝ := y - (y0 : ℝ)
  let fx : ℝ := x - (x0 : ℝ)
  let g : ℤ → ℤ → ℝ := fun iy ix => f (reflectFin H iy) (reflectFin W ix)
  (1 - fy) * (1 - fx) * g y0 x0 + (1 - fy) * fx * g y0 (x0 + 1)
    + fy * (1 - fx) * g (y0 + 1) x0 + fy * fx * g (y0 + 1) (x0 + 1)

/-- `np.clip(v, lo, hi)`. -/
noncomputable def clip (v lo hi : ℝ) : ℝ := min (max v lo) hi

/-- `ru_mat` entry: the radius `sqrt(xu^2 + yu^2)` of pixel `(y, x)` about the
distortion center. -/
noncomputable def ruMat (x_center y_center : ℚ) (y x : Nat) : ℝ :=
  Real.sqrt (((x : ℝ) - (x_center : ℝ)) ^ 2 + ((y : ℝ) - (y_center : ℝ)) ^ 2)

/-- `fact_mat` entry: the polynomial distortion factor
`sum_i coeff[i] * r ^ i`. -/
noncomputable def factMat (x_center y_center : ℚ) (list_fact : List ℚ)
    (y x : Nat) : ℝ :=
  (list_fact.enum.map fun p => (p.2 : ℝ) * ruMat x_center y_center y x ^ p.1).sum

/-- `xd_mat` entry: `clip(x_center + fact * xu, 0, width - 1)`. -/
noncomputable def xdMat (W : Nat) (x_center y_center : ℚ) (list_fact : List ℚ)
    (y x : Nat) : ℝ :=
  clip ((x_center : ℝ) + factMat x_center y_center list_fact y x
    * ((x : ℝ) - (x_center : ℝ))) 0 ((W : ℝ) - 1)

/-- `yd_mat` entry: `clip(y_center + fact * yu, 0, height - 1)`. -/
noncomputable def ydMat (H : Nat) (x_center y_center : ℚ) (list_fact : List ℚ)
    (y x : Nat) : ℝ :=
  clip ((y_center : ℝ) + factMat x_center y_center list_fact y x
    * ((y : ℝ) - (y_center : ℝ))) 0 ((H : ℝ) - 1)

/-- The pixel grid of a slice is nonempty. -/
theorem gridNonempty (H W : Nat) [NeZero H] [NeZero W] :
    (Finset.univ : Finset (Fin H × Fin W)).Nonempty :=
  ⟨(⟨0, Nat.pos_of_ne_zero (NeZero.ne H)⟩, ⟨0, Nat.pos_of_ne_zero (NeZero.ne W)⟩),
    Finset.mem_univ _⟩

/-- `cp.max` over a matrix. -/
noncomputable def cpMax {H W : Nat} [NeZero H] [NeZero W]
    (f : Fin H → Fin W → ℝ) : ℝ :=
  Finset.sup' Finset.univ (gridNonempty H W) fun p : Fin H × Fin W => f p.1 p.2

/-- `cp.min` over a matrix. -/
noncomputable def cpMin {H W : Nat} [NeZero H] [NeZero W]
    (f : Fin H → Fin W → ℝ) : ℝ :=
  Finset.inf' Finset.univ (gridNonempty H W) fun p : Fin H × Fin W => f p.1 p.2

/-- The slice assignment `data[i] = rhs` where `rhs` has shape `(h, w)`:
numpy broadcasts `rhs` into the `(H, W)` slot when each of its axes has full
or unit length, and raises a broadcast `ValueError` otherwise. -/
def setSliceBroadcast {N H W : Nat} (vol : Vol N H W) (i : Fin N) (h w : Nat)
    (rhs : Nat → Nat → ℝ) : Except PyErr (Vol N H W) :=
  if (h = H ∨ h = 1) ∧ (w = W ∨ w = 1) then
    .ok (Function.update vol i fun y x =>
      rhs (if h = 1 then 0 else y.val) (if w = 1 then 0 else x.val))
  else .error (.broadcastError [h, w] [H, W])

/-- The per-slice loop of `distortion_correction_proj` (alignment.py lines
205-211): resample the slice at `(yd, xd)` with order-1/reflect interpolation,
reshape to `(H, W)`, crop the margin, and assign the result back into the same
slice of `data`. -/
noncomputable def unwarpLoopA {N H W : Nat} [NeZero H] [NeZero W]
    (yd xd : Fin H → Fin W → ℝ) (crop : Nat) :
    List (Fin N) → Vol N H W → Except PyErr (Vol N H W)
  | [], vol => .ok vol
  | i :: rest, vol =>
    let mat : Fin H → Fin W → ℝ := fun y x =>
      mapCoord 1 "reflect" (vol i) (yd y x) (xd y x)
    let rhs : Nat → Nat → ℝ := fun a b =>
      if hab : crop + a < H ∧ crop + b < W then mat ⟨crop + a, hab.1⟩ ⟨crop + b, hab.2⟩
      else 0
    match setSliceBroadcast vol i (H - 2 * crop) (W - 2 * crop) rhs with
    | .error e => .error e
    | .ok vol2 => unwarpLoopA yd xd crop rest vol2

/-- The host-side stage of `distortion_correction_proj` (alignment.py lines
127-175), in source order: the unconditional metadata load of line 132 (whose
result is discarded), the preview step check, then resolution of the
distortion center and coefficients, either from the supplied parameters (when
`metadata_path` is `None`) or from the file after an `isfile` check with the
loader's `IOError` chained into a `ValueError`. -/
def distortionProjStage1 (fs : FileSys) (metadata_path : Option String)
    (preview : Preview) (center_from_left center_from_top : Option ℚ)
    (polynomial_coeffs : Option (List ℚ)) : Except PyErr (ℚ × ℚ × List ℚ) :=
  match _load_metadata_txt fs metadata_path with
  | .error e => .error e
  | .ok _ =>
    let stepX := preview.steps.getD 1 1
    let stepY := preview.steps.getD 0 1
    if 1 < max stepX stepY then
      .error (.valueError "Method doesn't work with the step in the preview larger than 1" none)
    else
      let x_offset : ℚ := ((preview.starts.getD 1 0 : ℤ) : ℚ)
      let y_offset : ℚ := ((preview.starts.getD 0 0 : ℤ) : ℚ)
      match metadata_path with
      | none =>
        match center_from_left, center_from_top, polynomial_coeffs with
        | some l, some t, some cs => .ok (l - x_offset, t - y_offset, cs)
        | _, _, _ => .error (.typeError "float() argument must not be NoneType")
      | some p =>
        if (fs p).isNone then
          .error (.valueError "No such file: please check the file path" none)
        else
          match _load_metadata_txt fs (some p) with
          | .ok q =>
            .ok (q.1 - x_offset, q.2.1 - y_offset, q.2.2)
          | .error (.fileNotFound q) =>
            .error (.valueError "Cannot open this file" (some ("FileNotFoundError: " ++ q)))
          | .error e => .error e

-- The device stage of `distortion_correction_proj` (alignment.py lines
-- 177-211): build the backward coordinate maps, fail when the vertical spread
-- of `yd` is below 1, then run the per-slice unwarp-and-crop loop over `data`.
open Classical in
noncomputable def distortionProjGrid {N H W : Nat} [NeZero H] [NeZero W]
    (data : Vol N H W) (x_center y_center : ℚ) (list_fact : List ℚ)
    (crop : Nat) : Except PyErr (Vol N H W) :=
  let yd : Fin H → Fin W → ℝ := fun y x => ydMat H x_center y_center list_fact y.val x.val
  let xd : Fin H → Fin W → ℝ := fun y x => xdMat W x_center y_center list_fact y.val x.val
  if cpMax yd - cpMin yd < 1 then
    .error (.valueError "You need to increase the preview size for this plugin to work" none)
  else
    unwarpLoopA yd xd crop (List.finRange N) data

/-- `distortion_correction_proj` (alignment.py lines 77-211), variant A:
host-side validation and center resolution, then the device-side grid and
unwarp-and-crop loop writing back into `data`. -/
noncomputable def distortion_correction_proj (fs : FileSys) {N H W : Nat}
    [NeZero H] [NeZero W] (data : Vol N H W) (metadata_path : Option String)
    (preview : Preview) (center_from_left : Option ℚ := none)
    (center_from_top : Option ℚ := none)
    (polynomial_coeffs : Option (List ℚ) := none) (crop : Nat := 0) :
    Except PyErr (Vol N H W) :=
  match distortionProjStage1 fs metadata_path preview center_from_left
      center_from_top polynomial_coeffs with
  | .error e => .error e
  | .ok q => distortionProjGrid data q.1 q.2.1 q.2.2 crop

/-- A single 2D image is promoted to a one-slice volume before processing
(`cp.expand_dims(data, axis=0)`, alignment.py lines 128-129). -/
noncomputable def distortion_correction_proj_2d (fs : FileSys) {H W : Nat}
    [NeZero H] [NeZero W] (img : Fin H → Fin W → ℝ) (metadata_path : Option String)
    (preview : Preview) (center_from_left : Option ℚ := none)
    (center_from_top : Option ℚ := none)
    (polynomial_coeffs : Option (List ℚ) := none) (crop : Nat := 0) :
    Except PyErr (Vol 1 H W) :=
  distortion_correction_proj fs (fun _ => img) metadata_path preview
    center_from_left center_from_top polynomial_coeffs crop

/-- The host-side stage of `distortion_correction_proj_discorpy` (alignment.py
lines 257-283): metadata load (used this time), preview step check, center
shift by the preview offsets.  There is no `isfile` check and no try/except
here. -/
def discorpyStage1 (fs : FileSys) (metadata_path : Option String)
    (preview : Preview) : Except PyErr (ℚ × ℚ × List ℚ) :=
  match _load_metadata_txt fs metadata_path with
  | .error e => .error e
  | .ok q =>
    let stepX := preview.steps.getD 1 1
    let stepY := preview.steps.getD 0 1
    if 1 < max stepX stepY then
      .error (.valueError "Method doesn't work with the step in the preview larger than 1" none)
    else
      let x_offset : ℚ := ((preview.starts.getD 1 0 : ℤ) : ℚ)
      let y_offset : ℚ := ((preview.starts.getD 0 0 : ℤ) : ℚ)
      .ok (q.1 - x_offset, q.2.1 - y_offset, q.2.2)

/-- The per-slice loop of `distortion_correction_proj_discorpy` (alignment.py
lines 302-308): resample each full slice and assign it back into the same
slice of `data` (shapes match, so the assignment always succeeds). -/
noncomputable def unwarpLoopB {N H W : Nat} [NeZero H] [NeZero W]
    (yd xd : Fin H → Fin W → ℝ) (order : Nat) (mode : String) :
    List (Fin N) → Vol N H W → Vol N H W
  | [], vol => vol
  | i :: rest, vol =>
    let mat : Fin H → Fin W → ℝ := fun y x =>
      mapCoord order mode (vol i) (yd y x) (xd y x)
    unwarpLoopB yd xd order mode rest (Function.update vol i mat)

/-- `distortion_correction_proj_discorpy` (alignment.py lines 221-308),
variant B: identical geometric model, caller-configurable `order` and `mode`,
no vertical-spread check and no cropping; the full resampled slices are
written back into `data`. -/
noncomputable def distortion_correction_proj_discorpy (fs : FileSys)
    {N H W : Nat} [NeZero H] [NeZero W] (data : Vol N H W)
    (metadata_path : Option String) (preview : Preview) (order : Nat := 1)
    (mode : String := "reflect") : Except PyErr (Vol N H W) :=
  match discorpyStage1 fs metadata_path preview with
  | .error e => .error e
  | .ok q =>
    let yd : Fin H → Fin W → ℝ := fun y x => ydMat H q.1 q.2.1 q.2.2 y.val x.val
    let xd : Fin H → Fin W → ℝ := fun y x => xdMat W q.1 q.2.1 q.2.2 y.val x.val
    .ok (unwarpLoopB yd xd order mode (List.finRange N) data)

/-- The buffer picture of one `median_filter3d` call: the returned output
buffer (first component, `out = cp.empty(...)` freshly allocated and written
by the kernel) and the caller's input buffer after the call (second component;
the kernel only reads `data`). -/
def median_filter3d_call (data : NDArray) (kernel_size : Nat := 3)
    (dif : ℚ := 0) : Except PyErr (NDArray × NDArray) :=
  (median_filter3d data kernel_size dif).map fun out => (out, data)

/-- The buffer picture of one `distortion_correction_proj` call: the loop
writes `data[i] = ...` in place and the function returns `data`, so the
returned buffer and the caller's input buffer after the call coincide. -/
noncomputable def distortion_correction_proj_call (fs : FileSys) {N H W : Nat}
    [NeZero H] [NeZero W] (data : Vol N H W) (metadata_path : Option String)
    (preview : Preview) (center_from_left : Option ℚ := none)
    (center_from_top : Option ℚ := none)
    (polynomial_coeffs : Option (List ℚ) := none) (crop : Nat := 0) :
    Except PyErr (Vol N H W × Vol N H W) :=
  (distortion_correction_proj fs data metadata_path preview center_from_left
    center_from_top polynomial_coeffs crop).map fun v => (v, v)

/-- The buffer picture of one `distortion_correction_proj_discorpy` call; as
for variant A, `data[i] = mat` writes in place and `data` is returned. -/
noncomputable def distortion_correction_proj_discorpy_call (fs : FileSys)
    {N H W : Nat} [NeZero H] [NeZero W] (data : Vol N H W)
    (metadata_path : Option String) (preview : Preview) (order : Nat := 1)
    (mode : String := "reflect") : Except PyErr (Vol N H W × Vol N H W) :=
  (distortion_correction_proj_discorpy fs data metadata_path preview order
    mode).map fun v => (v, v)

/- Concrete fixtures used by counterexamples and witnesses. -/

/-- The empty file system: every path is missing. -/
def fs0 : FileSys := fun _ => none

/-- A file system with three coefficient files: an identity model
(`coefficients = [1.0]`, center at the origin), a constant-to-origin model
(`coefficients = [0.0]`), and the labelled example file of the
specification. -/
def fsFiles : FileSys := fun p =>
  if p = "ident.txt" then some ["0.0", "0.0", "1.0"]
  else if p = "zero.txt" then some ["0.0", "0.0", "0.0"]
  else if p = "meta.txt" then some ["xc 12.5", "yc 7.25", "f0 1.0", "f1 0.0002"]
  else none

/-- A trivial preview: starts 0, steps 1 on every axis. -/
def prevOnes : Preview := ⟨[0, 0, 0], [1, 1, 1]⟩

/-- The preview of the specification's step test: `steps = [2, 1]`. -/
def prevStep2 : Preview := ⟨[0, 0], [2, 1]⟩

/-- A 1-slice 4x4 zero volume. -/
noncomputable def vol44 : Vol 1 4 4 := fun _ _ _ => 0

/-- A 1-slice 2x2 volume with values 1, 2, 3, 4 in row-major order. -/
noncomputable def volB : Vol 1 2 2 := fun _ y x => ((2 * y.val + x.val : Nat) : ℝ) + 1

/-- The all-ones 1-slice 2x2 volume. -/
noncomputable def constVol1 : Vol 1 2 2 := fun _ _ _ => 1

/-- A 2x2 zero image (a single 2D input). -/
noncomputable def img22 : Fin 2 → Fin 2 → ℝ := fun _ _ => 0

/-- A 1x1x1 float32 array with constant value 5. -/
def arr111 : NDArray := ⟨DType.float32, [1, 1, 1], fun _ _ _ => 5⟩

/-- A 2-axis float64 array: invalid dtype and invalid dimensionality. -/
def arrBad : NDArray := ⟨DType.float64, [2, 2], fun _ _ _ => 0⟩

/-- C10: for every input volume, kernel size and `dif`, `remove_outlier3d`
returns exactly `median_filter3d` on the same arguments; the two differ only
in the default `dif`, which is 0.1 for `remove_outlier3d` and 0 for
`median_filter3d`, and those defaults differ. -/
theorem remove_outlier3d_equiv :
    (∀ (data : NDArray) (ks : Nat) (dif : ℚ),
        remove_outlier3d data ks dif = median_filter3d data ks dif)
    ∧ (∀ (data : NDArray) (ks : Nat),
        remove_outlier3d data ks = remove_outlier3d data ks (1 / 10))
    ∧ (∀ (data : NDArray) (ks : Nat),
        median_filter3d data ks = median_filter3d data ks 0)
    ∧ (1 / 10 : ℚ) ≠ 0 :=
  ⟨fun _ _ _ => rfl, fun _ _ => by norm_num, fun _ _ => rfl, by norm_num⟩

/-- C1 counterexample: at non-slice shape (1,1), float32 and
`available_bytes = 0`, the estimator returns -26: the result is negative, so
it is not "clamped to be at least 0 (never negative)" as the claim states. -/
theorem calc_max_slices_negative_cex :
    _calc_max_slices_distortion_correction_proj 1 1 DType.float32 0
      = .ok (-26, DType.float32, (1, 1)) ∧ (-26 : ℤ) < 0 := by
  exact ⟨by decide, by decide⟩

/-- C1 (amended): for positive dimensions the estimator returns
`floor((available_bytes - fixed_overhead) / (H * W * itemsize))`: the fixed
temporary-buffer overhead (which includes the four per-slice interpolation
temporaries, counted once) is subtracted from `available_bytes` and the
remainder is floor-divided by the bytes of a single slice `H * W * itemsize`
(not by four slices' worth), and the result is not clamped, so it can be
negative. -/
theorem calc_max_slices_formula (H W : Nat) (dtype : DType) (avail : ℤ)
    (hH : 0 < H) (hW : 0 < W) :
    _calc_max_slices_distortion_correction_proj H W dtype avail
      = .ok (Int.fdiv (avail - (distortionFixedOverhead H W dtype.itemsize : ℤ))
          ((H * W * dtype.itemsize : Nat) : ℤ), dtype, (H, W)) := by
  have hitem : 0 < dtype.itemsize := by cases dtype <;> simp [DType.itemsize]
  have hslice : ¬ (H * W * dtype.itemsize = 0) := by positivity
  have h1 : (W * H * 2) * 8 / 2 = W * H * 8 := by
    have : (W * H * 2) * 8 = (W * H * 8) * 2 := by ring
    rw [this, Nat.mul_div_cancel _ (by norm_num)]
  have h2 : W * H * 8 / 2 = W * H * 4 := by
    have : W * H * 8 = (W * H * 4) * 2 := by ring
    rw [this, Nat.mul_div_cancel _ (by norm_num)]
  have hsum : (W + H) * 8 + W * H * 2 * 8 + W * H * 8 + W * H * 8 * 2 + W * H * 4
      + W * H * 4 + H * W * dtype.itemsize * 4 + (W * H * 4 + W * H * 4) * 3
      = distortionFixedOverhead H W dtype.itemsize := by
    unfold distortionFixedOverhead; ring
  simp only [_calc_max_slices_distortion_correction_proj, h1, h2, if_neg hslice, hsum]

/-- Witness for the amended C1 at shape (8,10), uint16, one megabyte. -/
theorem calc_max_slices_formula_witness :
    _calc_max_slices_distortion_correction_proj 8 10 DType.uint16 1000000
      = .ok (Int.fdiv (1000000 - (distortionFixedOverhead 8 10 DType.uint16.itemsize : ℤ))
          ((8 * 10 * DType.uint16.itemsize : Nat) : ℤ), DType.uint16, (8, 10)) :=
  calc_max_slices_formula 8 10 DType.uint16 1000000 (by decide) (by decide)

/-- C8: `median_filter3d` validates, in source order and before the kernel
stage (the raised error is exactly the validation phase's output): element
type in {float32, uint16}; exactly 3 axes and no zero-length axis; kernel size
in {3, 5, 7, 9, 11, 13} — raising a ValueError at the first violation. -/
theorem median_validation_order (data : NDArray) (ks : Nat) (dif : ℚ) :
    (¬ (data.dtype = DType.float32 ∨ data.dtype = DType.uint16) →
      medianValidate data ks
        = some (.valueError "The input data should be either float32 or uint16 data type" none)
      ∧ median_filter3d data ks dif
        = .error (.valueError "The input data should be either float32 or uint16 data type" none))
    ∧ ((data.dtype = DType.float32 ∨ data.dtype = DType.uint16) →
      data.shape.length ≠ 3 →
      medianValidate data ks = some (.valueError "The input array must be a 3D array" none)
      ∧ median_filter3d data ks dif
        = .error (.valueError "The input array must be a 3D array" none))
    ∧ ((data.dtype = DType.float32 ∨ data.dtype = DType.uint16) →
      data.shape.length = 3 → 0 ∈ data.shape →
      medianValidate data ks
        = some (.valueError "The length of one of dimensions is equal to zero" none)
      ∧ median_filter3d data ks dif
        = .error (.valueError "The length of one of dimensions is equal to zero" none))
    ∧ ((data.dtype = DType.float32 ∨ data.dtype = DType.uint16) →
      data.shape.length = 3 → ¬ 0 ∈ data.shape → ¬ ks ∈ [3, 5, 7, 9, 11, 13] →
      medianValidate data ks
        = some (.valueError "Please select a correct kernel size: 3, 5, 7, 9, 11, 13" none)
      ∧ median_filter3d data ks dif
        = .error (.valueError "Please select a correct kernel size: 3, 5, 7, 9, 11, 13" none)) := by
  refine ⟨fun h1 => ?_, fun h1 h2 => ?_, fun h1 h2 h3 => ?_, fun h1 h2 h3 h4 => ?_⟩
  all_goals
    have hval : medianValidate data ks = _ := rfl
    refine ⟨?_, ?_⟩
  case _ => simp [medianValidate, h1]
  case _ =>
    have hv : medianValidate data ks
        = some (.valueError "The input data should be either float32 or uint16 data type" none) := by
      simp [medianValidate, h1]
    simp [median_filter3d, hv]
  case _ => simp [medianValidate, h1, h2]
  case _ =>
    have hv : medianValidate data ks
        = some (.valueError "The input array must be a 3D array" none) := by
      simp [medianValidate, h1, h2]
    simp [median_filter3d, hv]
  case _ => simp [medianValidate, h1, h2, h3]
  case _ =>
    have hv : medianValidate data ks
        = some (.valueError "The length of one of dimensions is equal to zero" none) := by
      simp [medianValidate, h1, h2, h3]
    simp [median_filter3d, hv]
  case _ => simp [medianValidate, h1, h2, h3, h4]
  case _ =>
    have hv : medianValidate data ks
        = some (.valueError "Please select a correct kernel size: 3, 5, 7, 9, 11, 13" none) := by
      simp [medianValidate, h1, h2, h3, h4]
    simp [median_filter3d, hv]

/-- Witness for C8: a float64 2-axis array fails the dtype check first. -/
theorem median_validation_order_witness :
    medianValidate arrBad 3
      = some (.valueError "The input data should be either float32 or uint16 data type" none)
    ∧ median_filter3d arrBad 3 0
      = .error (.valueError "The input data should be either float32 or uint16 data type" none) :=
  (median_validation_order arrBad 3 0).1 (by decide)

/-- When every line's last whitespace token parses, `parseAllLines` returns
exactly those values in file order. -/
theorem parseAllLines_ok (ls : List String) (vs : List ℚ)
    (h : ls.map (fun l => ((splitWS l.data).getLast?).bind parseFloatTok)
      = vs.map some) :
    parseAllLines ls = .ok vs := by
  induction ls generalizing vs with
  | nil =>
    cases vs with
    | nil => rfl
    | cons v vt => simp at h
  | cons l t ih =>
    cases vs with
    | nil => simp at h
    | cons v vt =>
      simp only [List.map_cons, List.cons.injEq] at h
      obtain ⟨h1, h2⟩ := h
      cases hlast : (splitWS l.data).getLast? with
      | none => rw [hlast] at h1; exact absurd h1 (by simp)
      | some tok =>
        rw [hlast] at h1
        have h1' : parseFloatTok tok = some v := h1
        simp only [parseAllLines, hlast, h1', ih vt h2, Except.map]

/-- C9: for a file whose lines each end in a whitespace-separated token
parseable as a float (and which has the presupposed first and second lines),
the loader returns the first line's final value as x_center, the second
line's as y_center, and the final values of all remaining lines, in file
order, as the coefficient list. -/
theorem load_metadata_txt_spec (fs : FileSys) (p : String) (lines : List String)
    (v0 v1 : ℚ) (rest : List ℚ) (hfs : fs p = some lines)
    (hparse : lines.map (fun l => ((splitWS l.data).getLast?).bind parseFloatTok)
      = (v0 :: v1 :: rest).map some) :
    _load_metadata_txt fs (some p) = .ok (v0, v1, rest) := by
  have hp := parseAllLines_ok lines (v0 :: v1 :: rest) hparse
  simp only [_load_metadata_txt, hfs, hp]

/-- Evaluation of the parser on the line `"xc 12.5"`. -/
theorem parseTok_xc :
    ((splitWS ['x', 'c', ' ', '1', '2', '.', '5']).getLast?).bind parseFloatTok
      = some (25 / 2 : ℚ) := by
  have hs : (splitWS ['x', 'c', ' ', '1', '2', '.', '5']).getLast?
      = some ['1', '2', '.', '5'] := by decide
  rw [hs]
  show some (((12 : ℕ) : ℚ) + ((5 : ℕ) : ℚ) / ((10 : ℚ) ^ (1 : ℕ))) = some (25 / 2 : ℚ)
  norm_num

/-- Evaluation of the parser on the line `"yc 7.25"`. -/
theorem parseTok_yc :
    ((splitWS ['y', 'c', ' ', '7', '.', '2', '5']).getLast?).bind parseFloatTok
      = some (29 / 4 : ℚ) := by
  have hs : (splitWS ['y', 'c', ' ', '7', '.', '2', '5']).getLast?
      = some ['7', '.', '2', '5'] := by decide
  rw [hs]
  show some (((7 : ℕ) : ℚ) + ((25 : ℕ) : ℚ) / ((10 : ℚ) ^ (2 : ℕ))) = some (29 / 4 : ℚ)
  norm_num

/-- Evaluation of the parser on the line `"f0 1.0"`. -/
theorem parseTok_f0 :
    ((splitWS ['f', '0', ' ', '1', '.', '0']).getLast?).bind parseFloatTok
      = some (1 : ℚ) := by
  have hs : (splitWS ['f', '0', ' ', '1', '.', '0']).getLast?
      = some ['1', '.', '0'] := by decide
  rw [hs]
  show some (((1 : ℕ) : ℚ) + ((0 : ℕ) : ℚ) / ((10 : ℚ) ^ (1 : ℕ))) = some (1 : ℚ)
  norm_num

/-- Evaluation of the parser on the line `"f1 0.0002"`. -/
theorem parseTok_f1 :
    ((splitWS ['f', '1', ' ', '0', '.', '0', '0', '0', '2']).getLast?).bind parseFloatTok
      = some (1 / 5000 : ℚ) := by
  have hs : (splitWS ['f', '1', ' ', '0', '.', '0', '0', '0', '2']).getLast?
      = some ['0', '.', '0', '0', '0', '2'] := by
    decide
  rw [hs]
  show some (((0 : ℕ) : ℚ) + ((2 : ℕ) : ℚ) / ((10 : ℚ) ^ (4 : ℕ))) = some (1 / 5000 : ℚ)
  norm_num

/-- The four example lines parse to `12.5, 7.25, 1.0, 0.0002`. -/
theorem metaLinesParse :
    (["xc 12.5", "yc 7.25", "f0 1.0", "f1 0.0002"] : List String).map
        (fun l => ((splitWS l.data).getLast?).bind parseFloatTok)
      = ([25 / 2, 29 / 4, 1, 1 / 5000] : List ℚ).map some := by
  simp only [List.map_cons, List.map_nil, parseTok_xc, parseTok_yc, parseTok_f0,
    parseTok_f1]

/-- Witness for C9: the specification's example file parses to
`(12.5, 7.25, [1.0, 0.0002])`. -/
theorem load_metadata_txt_spec_witness :
    _load_metadata_txt fsFiles (some "meta.txt")
      = .ok (25 / 2, 29 / 4, [1, 1 / 5000]) :=
  load_metadata_txt_spec fsFiles "meta.txt"
    ["xc 12.5", "yc 7.25", "f0 1.0", "f1 0.0002"]
    (25 / 2) (29 / 4) [1, 1 / 5000] (by decide) metaLinesParse

/-- C3 (code bug): with `metadata_path = None` and the center and coefficient
parameters supplied, `distortion_correction_proj` does not succeed without
reading a file: the unconditional `_load_metadata_txt(metadata_path)` of
alignment.py line 132 runs first and raises `TypeError` on the `None` path,
so the parameter-resolution branch (lines 153-156) is unreachable. -/
theorem distortion_none_path_type_error :
    distortion_correction_proj fs0 vol44 none prevOnes (some 10) (some 20)
      (some [1]) 0
      = .error (.typeError "expected str, bytes or os.PathLike object, not NoneType") :=
  rfl

/-- C5 (amended): for every missing coefficient-file path, both variants fail,
but with the loader's raw `FileNotFoundError` propagating unchained: variant A
raises it from the unconditional load at line 132, before its own isfile check
and chained `raise ... from exc` can run, and variant B (lines 257-262) has no
path check or exception handling at all. -/
theorem missing_file_raw_error (fs : FileSys) {N H W : Nat} [NeZero H]
    [NeZero W] (dataA dataB : Vol N H W) (p : String) (preview : Preview)
    (cfl cft : Option ℚ) (pcs : Option (List ℚ)) (crop order : Nat)
    (mode : String) (hmiss : fs p = none) :
    distortion_correction_proj fs dataA (some p) preview cfl cft pcs crop
        = .error (.fileNotFound p)
    ∧ distortion_correction_proj_discorpy fs dataB (some p) preview order mode
        = .error (.fileNotFound p) := by
  have hload : _load_metadata_txt fs (some p) = .error (.fileNotFound p) := by
    simp only [_load_metadata_txt, hmiss]
  have hsA : distortionProjStage1 fs (some p) preview cfl cft pcs
      = .error (.fileNotFound p) := by
    unfold distortionProjStage1
    rw [hload]
  have hsB : discorpyStage1 fs (some p) preview = .error (.fileNotFound p) := by
    unfold discorpyStage1
    rw [hload]
  constructor
  · unfold distortion_correction_proj
    rw [hsA]
  · unfold distortion_correction_proj_discorpy
    rw [hsB]

/-- Witness for the amended C5 at the missing path "nope.txt". -/
theorem missing_file_raw_error_witness :
    distortion_correction_proj fs0 vol44 (some "nope.txt") prevOnes none none
        none 0
      = .error (.fileNotFound "nope.txt")
    ∧ distortion_correction_proj_discorpy fs0 vol44 (some "nope.txt") prevOnes
        1 "reflect"
      = .error (.fileNotFound "nope.txt") :=
  missing_file_raw_error fs0 vol44 vol44 "nope.txt" prevOnes none none none
    0 1 "reflect" rfl

/-- C5 counterexample: at the missing path "nope.txt", variant A fails with
the raw low-level `FileNotFoundError`, which carries no chained cause and is
not a descriptive wrapped error — contradicting the claim that both variants
fail with a descriptive, exception-chained error. -/
theorem missing_file_unchained_cex :
    distortion_correction_proj fs0 constVol1 (some "nope.txt") prevOnes none
        none none 0
      = .error (.fileNotFound "nope.txt")
    ∧ PyErr.isChained (.fileNotFound "nope.txt") = false :=
  ⟨rfl, rfl⟩

/-- C7: whenever the preview step on either spatial axis exceeds 1, both
distortion-correction variants return an error, and the error is already the
output of the host-side validation stage — it is produced before the
coordinate grid, any device buffer, or the resample loop of the device
stage. -/
theorem step_check_both_variants (fs : FileSys) {N H W : Nat} [NeZero H]
    [NeZero W] (dataA dataB : Vol N H W) (path : Option String)
    (preview : Preview) (cfl cft : Option ℚ) (pcs : Option (List ℚ))
    (crop order : Nat) (mode : String)
    (hstep : 1 < max (preview.steps.getD 1 1) (preview.steps.getD 0 1)) :
    (∃ e, distortionProjStage1 fs path preview cfl cft pcs = .error e
      ∧ distortion_correction_proj fs dataA path preview cfl cft pcs crop
          = .error e)
    ∧ (∃ e, discorpyStage1 fs path preview = .error e
      ∧ distortion_correction_proj_discorpy fs dataB path preview order mode
          = .error e) := by
  constructor
  · cases hload : _load_metadata_txt fs path with
    | error e =>
      have hs : distortionProjStage1 fs path preview cfl cft pcs = .error e := by
        unfold distortionProjStage1
        rw [hload]
      exact ⟨e, hs, by unfold distortion_correction_proj; rw [hs]⟩
    | ok q =>
      have hs : distortionProjStage1 fs path preview cfl cft pcs
          = .error (.valueError "Method doesn't work with the step in the preview larger than 1" none) := by
        unfold distortionProjStage1
        rw [hload]
        simp only [if_pos hstep]
      exact ⟨_, hs, by unfold distortion_correction_proj; rw [hs]⟩
  · cases hload : _load_metadata_txt fs path with
    | error e =>
      have hs : discorpyStage1 fs path preview = .error e := by
        unfold discorpyStage1
        rw [hload]
      exact ⟨e, hs, by unfold distortion_correction_proj_discorpy; rw [hs]⟩
    | ok q =>
      have hs : discorpyStage1 fs path preview
          = .error (.valueError "Method doesn't work with the step in the preview larger than 1" none) := by
        unfold discorpyStage1
        rw [hload]
        simp only [if_pos hstep]
      exact ⟨_, hs, by unfold distortion_correction_proj_discorpy; rw [hs]⟩

/-- Witness for C7: a single 2x2 image with `preview.steps = [2, 1]` fails in
the validation stage of both variants. -/
theorem step_check_both_variants_witness :
    (∃ e, distortionProjStage1 fs0 (some "nope.txt") prevStep2 none none none
          = .error e
      ∧ distortion_correction_proj_2d fs0 img22 (some "nope.txt") prevStep2
          none none none 0 = .error e)
    ∧ (∃ e, discorpyStage1 fs0 (some "nope.txt") prevStep2 = .error e
      ∧ distortion_correction_proj_discorpy fs0 (fun _ : Fin 1 => img22)
          (some "nope.txt") prevStep2 1 "reflect" = .error e) :=
  step_check_both_variants fs0 (fun _ => img22) (fun _ => img22)
    (some "nope.txt") prevStep2 none none none 0 1 "reflect" (by decide)

/-- C4: on every well-formed volume, the median/dezinger filter computes, per
in-bounds voxel: the neighbourhood median when `dif <= 0`; for `dif > 0` the
median exactly when `|input_voxel - median| > dif` and the unchanged input
voxel otherwise; and when `dif > 0` dominates every voxel's deviation from its
local median (in particular for sufficiently large `dif`), the output equals
the input exactly. -/
theorem median_dezinger_semantics (data : NDArray) (dz dy dx ks : Nat)
    (dif : ℚ) (hshape : data.shape = [dz, dy, dx])
    (hdtype : data.dtype = DType.float32 ∨ data.dtype = DType.uint16)
    (hzero : ¬ 0 ∈ data.shape) (hks : ks ∈ [3, 5, 7, 9, 11, 13]) :
    (∀ z y x, z < dz → y < dy → x < dx →
      ((dif ≤ 0 →
        (median_filter3d data ks dif).map (fun o => o.val z y x)
          = .ok (nbhdMedian data.val dz dy dx ks z y x))
      ∧ (0 < dif →
        (median_filter3d data ks dif).map (fun o => o.val z y x)
          = .ok (if dif < |data.val z y x - nbhdMedian data.val dz dy dx ks z y x|
              then nbhdMedian data.val dz dy dx ks z y x
              else data.val z y x))))
    ∧ (0 < dif →
      (∀ z y x, z < dz → y < dy → x < dx →
        |data.val z y x - nbhdMedian data.val dz dy dx ks z y x| ≤ dif) →
      median_filter3d data ks dif = .ok data) := by
  have h3 : data.shape.length = 3 := by rw [hshape]; rfl
  have hdt : ¬ ¬ (data.dtype = DType.float32 ∨ data.dtype = DType.uint16) :=
    not_not_intro hdtype
  have hval : medianValidate data ks = none := by
    unfold medianValidate
    rw [if_neg hdt, if_pos h3, if_neg hzero, if_pos hks]
  have hmed : median_filter3d data ks dif
      = .ok { data with
          val := fun z y x =>
            if z < dz ∧ y < dy ∧ x < dx then
              medianKernelVoxel data.val dz dy dx ks dif z y x
            else data.val z y x } := by
    unfold median_filter3d
    rw [hval]
    simp only [hshape]
    rfl
  constructor
  · intro z y x hz hy hx
    constructor
    · intro hdif
      rw [hmed]
      simp only [Except.map]
      rw [if_pos ⟨hz, hy, hx⟩]
      simp only [medianKernelVoxel]
      rw [if_pos hdif]
    · intro hdif
      rw [hmed]
      simp only [Except.map]
      rw [if_pos ⟨hz, hy, hx⟩]
      simp only [medianKernelVoxel]
      rw [if_neg (not_le.mpr hdif)]
  · intro hdif hsmall
    rw [hmed]
    have hfun : (fun z y x =>
        if z < dz ∧ y < dy ∧ x < dx then
          medianKernelVoxel data.val dz dy dx ks dif z y x
        else data.val z y x) = data.val := by
      funext z y x
      by_cases hin : z < dz ∧ y < dy ∧ x < dx
      · rw [if_pos hin]
        simp only [medianKernelVoxel]
        rw [if_neg (not_le.mpr hdif),
          if_neg (not_lt.mpr (hsmall z y x hin.1 hin.2.1 hin.2.2))]
      · rw [if_neg hin]
    rw [hfun]

/-- Witness for C4: the constant 1x1x1 volume with `dif = 1` passes through
the dezinger unchanged. -/
theorem median_dezinger_semantics_witness :
    median_filter3d arr111 3 1 = .ok arr111 :=
  (median_dezinger_semantics arr111 1 1 1 3 1 rfl (Or.inl rfl) (by decide)
      (by decide)).2 one_pos
    (fun z y x hz hy hx => by
      have hz0 : z = 0 := Nat.lt_one_iff.mp hz
      have hy0 : y = 0 := Nat.lt_one_iff.mp hy
      have hx0 : x = 0 := Nat.lt_one_iff.mp hx
      subst hz0
      subst hy0
      subst hx0
      have hm : nbhdMedian arr111.val 1 1 1 3 0 0 0 = 5 := by decide
      rw [show arr111.val 0 0 0 = 5 from rfl, hm, sub_self, abs_zero]
      exact zero_le_one)

/-- C6 (amended): `median_filter3d` writes into a freshly allocated output
buffer and leaves the caller's input unchanged (after the call the input
buffer still holds the original `data`), whereas the two distortion-correction
variants write their per-slice results back into the caller's input volume in
place: the buffer they return is the input buffer, so after the call the input
holds the corrected volume, not its original contents. -/
theorem buffer_policy_amended (data : NDArray) (ks : Nat) (dif : ℚ)
    {N H W : Nat} [NeZero H] [NeZero W] (fs : FileSys) (volA volC : Vol N H W)
    (path : Option String) (preview : Preview) (cfl cft : Option ℚ)
    (pcs : Option (List ℚ)) (crop order : Nat) (mode : String) :
    ((median_filter3d_call data ks dif).map Prod.snd
      = (median_filter3d data ks dif).map fun _ => data)
    ∧ ((distortion_correction_proj_call fs volA path preview cfl cft pcs
        crop).map Prod.snd
      = distortion_correction_proj fs volA path preview cfl cft pcs crop)
    ∧ ((distortion_correction_proj_discorpy_call fs volC path preview order
        mode).map Prod.snd
      = distortion_correction_proj_discorpy fs volC path preview order mode) := by
  refine ⟨?_, ?_, ?_⟩
  · unfold median_filter3d_call
    cases median_filter3d data ks dif <;> rfl
  · unfold distortion_correction_proj_call
    cases distortion_correction_proj fs volA path preview cfl cft pcs crop <;> rfl
  · unfold distortion_correction_proj_discorpy_call
    cases distortion_correction_proj_discorpy fs volC path preview order mode <;> rfl

/-- With a single coefficient `[c]`, the polynomial factor is the constant
`c` (the radius only appears with exponent zero). -/
theorem factMat_single (xc yc c : ℚ) (y x : Nat) :
    factMat xc yc [c] y x = (c : ℝ) := by
  show ((c : ℝ) * ruMat xc yc y x ^ (0 : ℕ) + 0 : ℝ) = (c : ℝ)
  rw [pow_zero, mul_one, add_zero]

/-- Under the identity model (center 0, coefficients `[1]`), the vertical
backward map on a height-4 grid is the identity on row indices. -/
theorem ydMat_ident (y x : Nat) (hy : y < 4) :
    ydMat 4 0 0 [1] y x = (y : ℝ) := by
  unfold ydMat clip
  rw [factMat_single]
  rw [show ((0 : ℚ) : ℝ) = 0 by norm_num, show ((1 : ℚ) : ℝ) = 1 by norm_num,
    show (((4 : Nat) : ℝ) - 1) = 3 by norm_num]
  rw [zero_add, one_mul, sub_zero]
  rw [max_eq_left (Nat.cast_nonneg y)]
  rw [min_eq_left (by exact_mod_cast Nat.lt_succ_iff.mp hy)]

/-- Under the constant-zero model (center 0, coefficients `[0]`), both
backward maps on a 2x2 grid send every pixel to coordinate 0. -/
theorem ydMat_zero2 (y x : Nat) : ydMat 2 0 0 [0] y x = 0 := by
  unfold ydMat clip
  rw [factMat_single]
  rw [show ((0 : ℚ) : ℝ) = 0 by norm_num, show (((2 : Nat) : ℝ) - 1) = 1 by norm_num]
  rw [zero_add, zero_mul, max_self]
  rw [min_eq_left (by norm_num)]

/-- `xd_mat` under the constant-zero model on a 2x2 grid. -/
theorem xdMat_zero2 (y x : Nat) : xdMat 2 0 0 [0] y x = 0 := by
  unfold xdMat clip
  rw [factMat_single]
  rw [show ((0 : ℚ) : ℝ) = 0 by norm_num, show (((2 : Nat) : ℝ) - 1) = 1 by norm_num]
  rw [zero_add, zero_mul, max_self]
  rw [min_eq_left (by norm_num)]

/-- Order-1 interpolation at the exact coordinate `(0, 0)` returns the sample
at the reflected index of 0. -/
theorem mapCoord_zero {H W : Nat} [NeZero H] [NeZero W] (o : Nat) (m : String)
    (f : Fin H → Fin W → ℝ) :
    mapCoord o m f 0 0 = f (reflectFin H 0) (reflectFin W 0) := by
  simp [mapCoord, Int.floor_zero]

/-- The host-side stage of variant B on the constant-zero coefficient file
resolves to center `(0, 0)` and coefficients `[0]`. -/
theorem discorpyZeroStage :
    discorpyStage1 fsFiles (some "zero.txt") prevOnes = .ok (0, 0, [0]) := by
  have hload : _load_metadata_txt fsFiles (some "zero.txt")
      = .ok (((0 : ℕ) : ℚ) + ((0 : ℕ) : ℚ) / ((10 : ℚ) ^ (1 : ℕ)),
          ((0 : ℕ) : ℚ) + ((0 : ℕ) : ℚ) / ((10 : ℚ) ^ (1 : ℕ)),
          [((0 : ℕ) : ℚ) + ((0 : ℕ) : ℚ) / ((10 : ℚ) ^ (1 : ℕ))]) := rfl
  have h0 : ((0 : ℕ) : ℚ) + ((0 : ℕ) : ℚ) / ((10 : ℚ) ^ (1 : ℕ)) = 0 := by norm_num
  rw [h0] at hload
  simp only [discorpyStage1, hload, prevOnes]
  norm_num [List.getD]

/-- A full run of variant B on `volB` with the constant-zero model: every
slice is overwritten with the sample at the origin, so the result is the
all-ones volume. -/
theorem discorpyZeroRun :
    distortion_correction_proj_discorpy fsFiles volB (some "zero.txt") prevOnes
      1 "reflect" = .ok constVol1 := by
  have hloop : unwarpLoopB (fun (y : Fin 2) (x : Fin 2) => ydMat 2 0 0 [0] y.val x.val)
      (fun (y : Fin 2) (x : Fin 2) => xdMat 2 0 0 [0] y.val x.val) 1 "reflect"
      (List.finRange 1) volB = constVol1 := by
    rw [show (List.finRange 1 : List (Fin 1)) = [0] from rfl]
    show Function.update volB 0 (fun y x => mapCoord 1 "reflect" (volB 0)
        (ydMat 2 0 0 [0] y.val x.val) (xdMat 2 0 0 [0] y.val x.val)) = constVol1
    funext i y x
    rw [Fin.eq_zero i, Function.update_same]
    rw [ydMat_zero2, xdMat_zero2, mapCoord_zero]
    show volB 0 0 0 = constVol1 i y x
    norm_num [volB, constVol1, Fin.val_zero]
  simp only [distortion_correction_proj_discorpy, discorpyZeroStage, hloop]

/-- C6 counterexample: calling variant B on the 1x2x2 volume with values
`1, 2, 3, 4` and the constant-zero model succeeds and leaves the caller's
input buffer holding the all-ones volume, which differs from the original
input — the call does not leave the input volume unchanged. -/
theorem discorpy_mutates_input_cex :
    distortion_correction_proj_discorpy_call fsFiles volB (some "zero.txt")
        prevOnes 1 "reflect" = .ok (constVol1, constVol1)
    ∧ constVol1 ≠ volB := by
  constructor
  · unfold distortion_correction_proj_discorpy_call
    rw [discorpyZeroRun]
    rfl
  · intro hEq
    have h2 := congrFun (congrFun (congrFun hEq 0) 0) 1
    norm_num [constVol1, volB, Fin.val_zero, Fin.val_one] at h2

/-- The host-side stage of variant A on the identity coefficient file resolves
to center `(0, 0)` and coefficients `[1]`. -/
theorem identStage :
    distortionProjStage1 fsFiles (some "ident.txt") prevOnes none none none
      = .ok (0, 0, [1]) := by
  have hload : _load_metadata_txt fsFiles (some "ident.txt")
      = .ok (((0 : ℕ) : ℚ) + ((0 : ℕ) : ℚ) / ((10 : ℚ) ^ (1 : ℕ)),
          ((0 : ℕ) : ℚ) + ((0 : ℕ) : ℚ) / ((10 : ℚ) ^ (1 : ℕ)),
          [((1 : ℕ) : ℚ) + ((0 : ℕ) : ℚ) / ((10 : ℚ) ^ (1 : ℕ))]) := rfl
  have h0 : ((0 : ℕ) : ℚ) + ((0 : ℕ) : ℚ) / ((10 : ℚ) ^ (1 : ℕ)) = 0 := by norm_num
  have h1 : ((1 : ℕ) : ℚ) + ((0 : ℕ) : ℚ) / ((10 : ℚ) ^ (1 : ℕ)) = 1 := by norm_num
  rw [h0, h1] at hload
  have hfs : fsFiles "ident.txt" = some ["0.0", "0.0", "1.0"] := rfl
  simp only [distortionProjStage1, hload, prevOnes, hfs]
  norm_num [List.getD]

/-- Under the identity model, the vertical map at pixel `(3, 0)` of the 4x4
grid is 3. -/
theorem yd_ident_at30 :
    ydMat 4 0 0 [1] (3 : Fin 4).val (0 : Fin 4).val = 3 := by
  rw [ydMat_ident _ _ (by decide)]
  show ((3 : ℕ) : ℝ) = 3
  norm_num

/-- Under the identity model, the vertical map at pixel `(0, 0)` of the 4x4
grid is 0. -/
theorem yd_ident_at00 :
    ydMat 4 0 0 [1] (0 : Fin 4).val (0 : Fin 4).val = 0 := by
  rw [ydMat_ident _ _ (by decide)]
  show ((0 : ℕ) : ℝ) = 0
  norm_num

/-- C2 (code bug): on a 1x4x4 volume with the identity model and `crop = 1`,
variant A does not return a `(2, 2)`-cropped volume: the write-back
`data[i] = mat_corrected[crop:height-crop, crop:width-crop]` assigns a
`(2, 2)` array into the `(4, 4)` slice slot and fails with a numpy broadcast
`ValueError`. -/
theorem distortion_crop_broadcast_failure :
    distortion_correction_proj fsFiles vol44 (some "ident.txt") prevOnes none
        none none 1
      = .error (.broadcastError [2, 2] [4, 4]) := by
  have hmax : (3 : ℝ) ≤ cpMax
      (fun (y : Fin 4) (x : Fin 4) => ydMat 4 0 0 [1] y.val x.val) := by
    have hle := Finset.le_sup'
      (fun p : Fin 4 × Fin 4 => ydMat 4 0 0 [1] p.1.val p.2.val)
      (Finset.mem_univ ((3 : Fin 4), (0 : Fin 4)))
    calc (3 : ℝ) = ydMat 4 0 0 [1] (3 : Fin 4).val (0 : Fin 4).val :=
          yd_ident_at30.symm
      _ ≤ _ := hle
  have hmin : cpMin
      (fun (y : Fin 4) (x : Fin 4) => ydMat 4 0 0 [1] y.val x.val) ≤ 0 := by
    have hge := Finset.inf'_le
      (fun p : Fin 4 × Fin 4 => ydMat 4 0 0 [1] p.1.val p.2.val)
      (Finset.mem_univ ((0 : Fin 4), (0 : Fin 4)))
    calc cpMin (fun (y : Fin 4) (x : Fin 4) => ydMat 4 0 0 [1] y.val x.val)
          ≤ ydMat 4 0 0 [1] (0 : Fin 4).val (0 : Fin 4).val := hge
      _ = 0 := yd_ident_at00
  have hnot : ¬ (cpMax (fun (y : Fin 4) (x : Fin 4) => ydMat 4 0 0 [1] y.val x.val)
      - cpMin (fun (y : Fin 4) (x : Fin 4) => ydMat 4 0 0 [1] y.val x.val) < 1) := by
    intro hcon
    linarith
  have hset : ∀ rhs : Nat → Nat → ℝ,
      setSliceBroadcast vol44 (0 : Fin 1) (4 - 2 * 1) (4 - 2 * 1) rhs
        = .error (.broadcastError [2, 2] [4, 4]) := by
    intro rhs
    unfold setSliceBroadcast
    rw [if_neg (by decide)]
  simp only [distortion_correction_proj, identStage]
  simp only [distortionProjGrid]
  rw [if_neg hnot]
  rw [show (List.finRange 1 : List (Fin 1)) = [0] from rfl]
  simp only [unwarpLoopA, hset]

/-- Witness for the amended C6 at concrete inputs. -/
theorem buffer_policy_amended_witness :
    ((median_filter3d_call arr111 3 0).map Prod.snd
      = (median_filter3d arr111 3 0).map fun _ => arr111)
    ∧ ((distortion_correction_proj_call fs0 constVol1 (some "nope.txt")
        prevOnes none none none 0).map Prod.snd
      = distortion_correction_proj fs0 constVol1 (some "nope.txt") prevOnes
          none none none 0)
    ∧ ((distortion_correction_proj_discorpy_call fs0 constVol1
        (some "nope.txt") prevOnes 1 "reflect").map Prod.snd
      = distortion_correction_proj_discorpy fs0 constVol1 (some "nope.txt")
          prevOnes 1 "reflect") :=
  buffer_policy_amended arr111 3 0 fs0 constVol1 constVol1 (some "nope.txt")
    prevOnes none none none 0 1 "reflect"
